import Mathlib

/-
Verification development for the ASE (ASCII Scene Export) geometry builder.

The builder (src/io_scene_ase/builder.py, function build_ase) consumes a
sequence of triangulated source meshes and produces an in-memory ASE
document.  This file gives a shallow embedding of that builder and of the
document data model, and proves the claimed properties about it.

Modelling conventions:
- Host (Blender) mesh data that build_ase merely reads is represented by the
  MeshInput record: vertex positions, per-loop vertex indices, loop
  triangles, material slots, smoothing groups, UV layers, edge topology
  flags and color attributes.
- mathutils matrices are 4 x 4 rational matrices; the rotation by pi about
  the Z axis used by the builder is exact.  Matrix.decompose is numeric
  polar decomposition and is not reproduced; the decomposed scale triple is
  carried as an input field of MeshInput, which is all the builder reads
  from it.
- Python exceptions become an Except value: an error aborts the whole build
  and no document is returned.
-/

abbrev Vec3 := ℚ × ℚ × ℚ

def negVec (v : Vec3) : Vec3 := (-v.1, -v.2.1, -v.2.2)

abbrev Mat4 := Fin 4 → Fin 4 → ℚ

def identityMat4 : Mat4 := fun i j => if i = j then 1 else 0

/-- Exact matrix of Matrix.Rotation(math.pi, 4, Z): cos pi = -1, sin pi = 0. -/
def rotZPi : Mat4 := fun i j =>
  if i = 0 ∧ j = 0 then -1
  else if i = 1 ∧ j = 1 then -1
  else if i = 2 ∧ j = 2 then 1
  else if i = 3 ∧ j = 3 then 1
  else 0

def mat4Mul (A B : Mat4) : Mat4 := fun i j =>
  A i 0 * B 0 j + A i 1 * B 1 j + A i 2 * B 2 j + A i 3 * B 3 j

/-- Action of a 4 x 4 matrix on a 3-vector with homogeneous coordinate 1,
as mathutils applies a Matrix to a 3d Vector. -/
def applyMat4 (M : Mat4) (v : Vec3) : Vec3 :=
  (M 0 0 * v.1 + M 0 1 * v.2.1 + M 0 2 * v.2.2 + M 0 3,
   M 1 0 * v.1 + M 1 1 * v.2.1 + M 1 2 * v.2.2 + M 1 3,
   M 2 0 * v.1 + M 2 1 * v.2.1 + M 2 2 * v.2.2 + M 2 3)

def tripleGet {α : Type} (t : α × α × α) (i : ℕ) : α :=
  if i = 0 then t.1 else if i = 1 then t.2.1 else t.2.2

def listToTriple {α : Type} (l : List α) (d : α) : α × α × α :=
  (l.getD 0 d, l.getD 1 d, l.getD 2 d)

def charListIsPrefixOf : List Char → List Char → Bool
  | [], _ => true
  | _ :: _, [] => false
  | c :: cs, d :: ds => c == d && charListIsPrefixOf cs ds

/-- Modelled from the spec: is_collision_name (defined in the repository
module ase, which is not under src/) is the name-pattern predicate that
distinguishes collision meshes.  The exact pattern is not given by the
spec; it is modelled as a fixed prefix test.  Every claim depends only on
the boolean result of the predicate per name. -/
def is_collision_name (name : String) : Bool :=
  charListIsPrefixOf "MCDCX".data name.data

/-- One loop triangle of the evaluated mesh (mesh_data.loop_triangles):
three loop indices, the material index, the owning polygon index, the face
normal and the three per-corner split normals. -/
structure LoopTriangle where
  loops : ℕ × ℕ × ℕ
  materialIndex : ℕ
  polygonIndex : ℕ
  normal : Vec3
  splitNormals : Vec3 × Vec3 × Vec3
deriving DecidableEq

/-- Topology flags of one bmesh edge, read during collision validation. -/
structure MeshEdge where
  isManifold : Bool
  isConvex : Bool
deriving DecidableEq

/-- One color attribute of the mesh: name, domain tag and per-loop RGBA
data (the builder keeps only the first three components). -/
structure ColorAttribute where
  name : String
  domain : String
  data : List (ℚ × ℚ × ℚ × ℚ)
deriving DecidableEq

/-- All the data that build_ase reads from one source mesh object.
Materials are opaque handles, modelled as natural numbers; decomposedScale
is the scale triple returned by vertex_transform.decompose(), carried as
input because the decomposition itself is host-side numerics. -/
structure MeshInput where
  name : String
  vertices : List Vec3
  matrixWorld : Mat4
  decomposedScale : List ℚ
  loops : List ℕ
  loopTriangles : List LoopTriangle
  materialSlots : List (Option ℕ)
  polyGroups : List ℤ
  uvLayers : List (List (ℚ × ℚ))
  edges : List MeshEdge
  activeColorName : String
  colorAttributes : List ColorAttribute

def SMOOTHING_GROUP_MAX : ℤ := 32

/-- Errors raised by build_ase (class ASEBuildError); each constructor
carries the data interpolated into the corresponding message string.
materialNotInList models the uncaught ValueError that Python list.index
raises when a slot material is absent from options.materials. -/
inductive ASEBuildError where
  | emptyMaterialSlot (slotNumber : ℕ) (objectName : String)
  | materialNotInList (objectName : String)
  | collisionNotManifold (objectName : String)
  | collisionNotConvex (objectName : String)
  | materialIndexOutOfBounds (materialIndex : ℕ) (objectName : String)
      (referencedIndices : List ℕ)
  | invalidVertexColorMode
  | colorAttributeDomain (attributeName : String) (objectName : String)
      (domain : String)
  | noMeshObjectsSelected
  | noNonCollisionMesh
deriving DecidableEq

/-- Modelled from the spec: the ASEFace record of the ase module (not under
src/).  Fields are exactly those build_ase assigns; material_index of a
collision face is left at its default, per the spec it is undefined and
ignored. -/
structure ASEFace where
  a : ℕ := 0
  b : ℕ := 0
  c : ℕ := 0
  materialIndex : ℕ := 0
  smoothing : ℤ := 0
deriving DecidableEq

/-- Modelled from the spec: the ASEVertexNormal record of the ase module
(not under src/). -/
structure ASEVertexNormal where
  vertexIndex : ℕ
  normal : Vec3
deriving DecidableEq

/-- Modelled from the spec: the ASEFaceNormal record of the ase module (not
under src/): one face normal plus the per-corner vertex normals. -/
structure ASEFaceNormal where
  normal : Vec3
  vertexNormals : List ASEVertexNormal := []
deriving DecidableEq

/-- Modelled from the spec: the ASEUVLayer record of the ase module (not
under src/).  The spec data model gives each UV channel a list of texture
vertices plus its own texture_vertex_faces index-triple list; both fields
are present here so that the claim about per-channel face triples can be
stated.  build_ase only ever appends to textureVertices. -/
structure ASEUVLayer where
  textureVertices : List Vec3 := []
  textureVertexFaces : List (ℕ × ℕ × ℕ) := []
deriving DecidableEq

/-- Modelled from the spec: the ASEGeometryObject record of the ase module
(not under src/), with the fields build_ase uses.  is_collision is derived
from the name at creation and cached. -/
structure ASEGeometryObject where
  name : String := ""
  isCollision : Bool := false
  vertices : List Vec3 := []
  faces : List ASEFace := []
  faceNormals : List ASEFaceNormal := []
  uvLayers : List ASEUVLayer := []
  textureVertexFaces : List (ℕ × ℕ × ℕ) := []
  vertexColors : List Vec3 := []
  vertexOffset : ℕ := 0
  textureVertexOffset : ℕ := 0
deriving DecidableEq

/-- Modelled from the spec: the ASE document record of the ase module (not
under src/): the shared material list plus the geometry objects. -/
structure ASE where
  materials : List ℕ := []
  geometryObjects : List ASEGeometryObject := []
deriving DecidableEq

/-- Options record ASEBuildOptions with the default values assigned in its
constructor (builder.py lines 17-26). -/
structure ASEBuildOptions where
  objectEvalState : String := "EVALUATED"
  materials : List ℕ := []
  transform : Mat4 := identityMat4
  shouldExportVertexColors : Bool := true
  vertexColorMode : String := "ACTIVE"
  hasVertexColors : Bool := false
  vertexColorAttribute : String := ""
  shouldInvertNormals : Bool := false

/-- Number of negative axes in the decomposed scale:
sum([1 for x in scale if x < 0]). -/
def negativeScalingAxes (scale : List ℚ) : ℕ :=
  (scale.map fun x => if x < 0 then 1 else 0).sum

/-- Winding/normal inversion flag exactly as computed by builder.py lines
123-127: odd count of negative scale axes, then negated when the
should_invert_normals option is set. -/
def computeShouldInvertNormals (options : ASEBuildOptions) (scale : List ℚ) : Bool :=
  let s := decide (negativeScalingAxes scale % 2 = 1)
  if options.shouldInvertNormals then !s else s

/-- Corner iteration order (builder.py line 129): (2,1,0) when inverting,
(0,1,2) otherwise. -/
def loopTriangleIndexOrder (invert : Bool) : List ℕ :=
  if invert then [2, 1, 0] else [0, 1, 2]

/-- Collision-mesh validation (builder.py lines 88-98): every bmesh edge
must be manifold and convex, checked in that order per edge; the first
violation aborts with an error naming the object. -/
def validateCollisionMesh (objectName : String) : List MeshEdge → Except ASEBuildError Unit
  | [] => .ok ()
  | e :: rest =>
    if !e.isManifold then .error (.collisionNotManifold objectName)
    else if !e.isConvex then .error (.collisionNotConvex objectName)
    else validateCollisionMesh objectName rest

/-- Resolution of the mesh material slots against options.materials
(builder.py lines 105-110): an empty slot aborts; otherwise the position of
the slot material in options.materials (Python list.index) is recorded. -/
def resolveSlots (optMaterials : List ℕ) (objectName : String) :
    List (Option ℕ) → ℕ → Except ASEBuildError (List ℕ)
  | [], _ => .ok []
  | none :: _, i => .error (.emptyMaterialSlot (i + 1) objectName)
  | some mat :: rest, i =>
    match optMaterials.indexOf? mat with
    | none => .error (.materialNotInList objectName)
    | some k => (resolveSlots optMaterials objectName rest (i + 1)).map (k :: ·)

/-- Material indices for one mesh (builder.py lines 105-114): collision
meshes resolve nothing; a mesh without material slots gets the single
implicit index 0. -/
def materialIndicesFor (options : ASEBuildOptions) (m : MeshInput) (isCollision : Bool) :
    Except ASEBuildError (List ℕ) := do
  let mi ← if isCollision then .ok [] else resolveSlots options.materials m.name m.materialSlots 0
  .ok (if mi.isEmpty then [0] else mi)

def insertAscending (x : ℕ) : List ℕ → List ℕ
  | [] => [x]
  | y :: ys => if x ≤ y then x :: y :: ys else y :: insertAscending x ys

def sortAscending (l : List ℕ) : List ℕ := l.foldr insertAscending []

/-- Sorted set of material indices referenced by the loop triangles
(builder.py lines 132 and 140): the set face_material_indices, listed in
ascending order as sorted(list(face_material_indices)) renders it. -/
def referencedMaterialIndices (m : MeshInput) : List ℕ :=
  sortAscending (m.loopTriangles.map (·.materialIndex)).dedup

/-- Bounds check of the referenced material indices (builder.py lines
134-142): the first referenced index not below the resolved slot count
aborts, reporting that index, the object name and the whole sorted
referenced set. -/
def checkFaceMaterialIndices (m : MeshInput) (materialIndices : List ℕ) :
    Except ASEBuildError Unit :=
  match (referencedMaterialIndices m).find? (fun i => materialIndices.length ≤ i) with
  | some i => .error (.materialIndexOutOfBounds i m.name (referencedMaterialIndices m))
  | none => .ok ()

/-- Vertex index for one face corner (builder.py line 149):
vertex_offset + mesh_data.loops[loop_triangle.loops[j]].vertex_index. -/
def meshFaceCorner (m : MeshInput) (vertexOffset : ℕ) (lt : LoopTriangle) (j : ℕ) : ℕ :=
  vertexOffset + m.loops.getD (tripleGet lt.loops j) 0

/-- Stored smoothing value (builder.py line 159):
(poly_groups[polygon_index] - 1) % SMOOTHING_GROUP_MAX. -/
def faceSmoothing (rawGroup : ℤ) : ℤ := (rawGroup - 1) % SMOOTHING_GROUP_MAX

/-- Faces contributed by one mesh (builder.py lines 147-160). -/
def meshFaces (m : MeshInput) (vertexOffset : ℕ) (materialIndices : List ℕ)
    (isCollision : Bool) (order : List ℕ) : List ASEFace :=
  m.loopTriangles.map fun lt =>
    { a := meshFaceCorner m vertexOffset lt (order.getD 0 0)
      b := meshFaceCorner m vertexOffset lt (order.getD 1 0)
      c := meshFaceCorner m vertexOffset lt (order.getD 2 0)
      materialIndex := if isCollision then 0 else materialIndices.getD lt.materialIndex 0
      smoothing := faceSmoothing (m.polyGroups.getD lt.polygonIndex 0) }

/-- One per-corner vertex normal (builder.py lines 169-173), negated when
inverting. -/
def meshVertexNormal (m : MeshInput) (vertexOffset : ℕ) (invert : Bool)
    (lt : LoopTriangle) (i : ℕ) : ASEVertexNormal :=
  { vertexIndex := vertexOffset + m.loops.getD (tripleGet lt.loops i) 0
    normal := if invert then negVec (tripleGet lt.splitNormals i) else tripleGet lt.splitNormals i }

/-- Face normals contributed by one mesh (builder.py lines 164-175): the
face normal itself is recorded unchanged; the corner normals follow the
corner order and are negated when inverting. -/
def meshFaceNormals (m : MeshInput) (vertexOffset : ℕ) (invert : Bool)
    (order : List ℕ) : List ASEFaceNormal :=
  m.loopTriangles.map fun lt =>
    { normal := lt.normal
      vertexNormals := order.map (meshVertexNormal m vertexOffset invert lt) }

/-- Per-loop (u, v, 0) texture vertices of one mesh UV layer (builder.py
lines 182-184): the loop index enumerates mesh loops and indexes the layer
data. -/
def meshUVValues (m : MeshInput) (layerData : List (ℚ × ℚ)) : List Vec3 :=
  (List.range m.loops.length).map fun li =>
    ((layerData.getD li (0, 0)).1, (layerData.getD li (0, 0)).2, 0)

def meshUVValueLists (m : MeshInput) : List (List Vec3) :=
  m.uvLayers.map (meshUVValues m)

/-- UV-layer merge (builder.py lines 178-184): layer i of the mesh appends
its texture vertices to layer i of the geometry object, a new ASEUVLayer
being appended when the object has no layer i yet. -/
def appendUVLayers : List ASEUVLayer → List (List Vec3) → List ASEUVLayer
  | gos, [] => gos
  | [], md :: mds => { textureVertices := md } :: appendUVLayers [] mds
  | go :: gos, md :: mds =>
    { go with textureVertices := go.textureVertices ++ md } :: appendUVLayers gos mds

/-- Texture-vertex-face triples contributed by one mesh (builder.py lines
187-190): texture_vertex_offset + the triangle loop indices, in corner
order. -/
def meshTextureVertexFaces (m : MeshInput) (textureVertexOffset : ℕ)
    (order : List ℕ) : List (ℕ × ℕ × ℕ) :=
  m.loopTriangles.map fun lt =>
    listToTriple (order.map fun l => textureVertexOffset + tripleGet lt.loops l) 0

/-- Vertex-color data for one mesh (builder.py lines 192-210): exported
only when both should_export_vertex_colors and has_vertex_colors hold; the
attribute is the active one or the explicitly named one; a missing
attribute silently contributes nothing; a present attribute must be on the
CORNER domain; only the RGB components are kept. -/
def meshVertexColors (options : ASEBuildOptions) (m : MeshInput) :
    Except ASEBuildError (List Vec3) :=
  if options.shouldExportVertexColors && options.hasVertexColors then
    match
      (if options.vertexColorMode = "ACTIVE" then .ok m.activeColorName
       else if options.vertexColorMode = "EXPLICIT" then .ok options.vertexColorAttribute
       else .error .invalidVertexColorMode : Except ASEBuildError String) with
    | .error e => .error e
    | .ok colorAttributeName =>
      match m.colorAttributes.find? (fun a => a.name = colorAttributeName) with
      | none => .ok []
      | some attr =>
        if attr.domain ≠ "CORNER" then
          .error (.colorAttributeDomain attr.name m.name attr.domain)
        else
          .ok (attr.data.map fun c => (c.1, c.2.1, c.2.2.1))
  else .ok []

/-- Builder state across the per-object loop: the geometry objects built so
far and the index of the main (non-collision) object, when one exists. -/
structure BuildState where
  geometryObjects : List ASEGeometryObject := []
  mainIndex : Option ℕ := none
deriving DecidableEq

/-- Geometry-object selection (builder.py lines 79-86): a non-collision
mesh reuses the main object when one exists; otherwise a new object named
after the mesh is appended, becoming main when non-collision. -/
def selectGeometryObject (st : BuildState) (name : String) : BuildState × ℕ :=
  if !is_collision_name name && st.mainIndex.isSome then
    (st, st.mainIndex.getD 0)
  else
    let go : ASEGeometryObject := { name := name, isCollision := is_collision_name name }
    let idx := st.geometryObjects.length
    ({ geometryObjects := st.geometryObjects ++ [go],
       mainIndex := if !is_collision_name name then some idx else st.mainIndex }, idx)

/-- All mutations of the selected geometry object for one mesh, given the
already-resolved material indices and vertex colors (builder.py lines
100-103 and 146-214). -/
def updateGeometryObject (options : ASEBuildOptions) (m : MeshInput)
    (go : ASEGeometryObject) (materialIndices : List ℕ) (colors : List Vec3) :
    ASEGeometryObject :=
  let invert := computeShouldInvertNormals options m.decomposedScale
  let order := loopTriangleIndexOrder invert
  let vertexTransform := mat4Mul rotZPi m.matrixWorld
  let vertices := go.vertices ++ m.vertices.map (applyMat4 vertexTransform)
  { go with
    vertices := vertices
    faces := go.faces ++ meshFaces m go.vertexOffset materialIndices go.isCollision order
    faceNormals :=
      if go.isCollision then go.faceNormals
      else go.faceNormals ++ meshFaceNormals m go.vertexOffset invert order
    uvLayers :=
      if go.isCollision then go.uvLayers
      else appendUVLayers go.uvLayers (meshUVValueLists m)
    textureVertexFaces :=
      if go.isCollision then go.textureVertexFaces
      else go.textureVertexFaces ++ meshTextureVertexFaces m go.textureVertexOffset order
    vertexColors := go.vertexColors ++ colors
    textureVertexOffset := go.textureVertexOffset + m.loops.length
    vertexOffset := vertices.length }

/-- State after object selection for one mesh. -/
def selectedState (st : BuildState) (m : MeshInput) : BuildState :=
  (selectGeometryObject st m.name).1

/-- Index of the geometry object selected for one mesh. -/
def selectedIndex (st : BuildState) (m : MeshInput) : ℕ :=
  (selectGeometryObject st m.name).2

/-- The geometry object selected for one mesh. -/
def selectedObject (st : BuildState) (m : MeshInput) : ASEGeometryObject :=
  (selectedState st m).geometryObjects.getD (selectedIndex st m) {}

/-- One iteration of the per-object loop of build_ase: object selection,
collision validation, material resolution, face material bounds check,
vertex-color resolution, then the pure update of the selected object.  The
fallible steps appear in the order the corresponding exceptions can be
raised in builder.py. -/
def processMesh (options : ASEBuildOptions) (st : BuildState) (m : MeshInput) :
    Except ASEBuildError BuildState :=
  match (if (selectedObject st m).isCollision then validateCollisionMesh m.name m.edges
         else .ok ()) with
  | .error e => .error e
  | .ok () =>
    match materialIndicesFor options m (selectedObject st m).isCollision with
    | .error e => .error e
    | .ok materialIndices =>
      match checkFaceMaterialIndices m materialIndices with
      | .error e => .error e
      | .ok () =>
        match (if (selectedObject st m).isCollision then .ok []
               else meshVertexColors options m) with
        | .error e => .error e
        | .ok colors =>
          .ok { selectedState st m with
                geometryObjects :=
                  (selectedState st m).geometryObjects.set (selectedIndex st m)
                    (updateGeometryObject options m (selectedObject st m) materialIndices colors) }

/-- The per-object loop of build_ase (builder.py lines 57-216). -/
def buildLoop (options : ASEBuildOptions) :
    BuildState → List MeshInput → Except ASEBuildError BuildState
  | st, [] => .ok st
  | st, m :: rest =>
    match processMesh options st m with
    | .error e => .error e
    | .ok st' => buildLoop options st' rest

/-- build_ase (builder.py lines 47-226): run the per-object loop from the
empty state, then fail when no geometry object was produced, fail when no
non-collision object exists, and otherwise return the document with
materials taken from the options. -/
def build_ase (options : ASEBuildOptions) (meshes : List MeshInput) :
    Except ASEBuildError ASE :=
  match buildLoop options {} meshes with
  | .error e => .error e
  | .ok st =>
    if st.geometryObjects.length = 0 then .error .noMeshObjectsSelected
    else if st.mainIndex.isNone then .error .noNonCollisionMesh
    else .ok { materials := options.materials, geometryObjects := st.geometryObjects }

/-- Options as constructed by the collection export operator
(ASE_OT_export_collection.execute, exporter.py): a fresh ASEBuildOptions
with only the evaluation state, the export-space transform and the
resolved material list assigned; no vertex-color field is ever touched. -/
def collectionExportOptions (objectEvalState : String) (transform : Mat4)
    (materials : List ℕ) : ASEBuildOptions :=
  { objectEvalState := objectEvalState, transform := transform, materials := materials }

/-
List helper lemmas used throughout the development.
-/

lemma getD_mem {α : Type} {l : List α} {i : ℕ} (d : α) (h : i < l.length) :
    l.getD i d ∈ l := by
  induction l generalizing i with
  | nil => simp at h
  | cons x xs ih =>
    cases i with
    | zero => simp
    | succ n =>
      simp only [List.getD_cons_succ]
      exact List.mem_cons_of_mem _ (ih (by simpa using h))

lemma map_set_proj {α β : Type} (g : α → β) (l : List α) (i : ℕ) (x : α) (d : α)
    (h : g x = g (l.getD i d)) : (l.set i x).map g = l.map g := by
  induction l generalizing i with
  | nil => simp
  | cons a as ih =>
    cases i with
    | zero => simp only [List.getD_cons_zero] at h; simp [h]
    | succ n =>
      simp only [List.getD_cons_succ] at h
      simp [ih n h]

lemma set_append_singleton {α : Type} (l : List α) (x y : α) :
    (l ++ [x]).set l.length y = l ++ [y] := by
  induction l with
  | nil => simp
  | cons a as ih => simp [ih]

lemma getD_append_left {α : Type} {l l' : List α} {i : ℕ} (d : α) (h : i < l.length) :
    (l ++ l').getD i d = l.getD i d := by
  induction l generalizing i with
  | nil => simp at h
  | cons a as ih =>
    cases i with
    | zero => simp
    | succ n => simpa using ih (by simpa using h)

lemma getD_append_length {α : Type} (l : List α) (x : α) (d : α) :
    (l ++ [x]).getD l.length d = x := by
  induction l with
  | nil => simp
  | cons a as ih => simp [ih]

/-
Elimination and evolution lemmas for the per-mesh step.
-/

lemma processMesh_eq_ok {o : ASEBuildOptions} {st : BuildState} {m : MeshInput}
    {st' : BuildState} (h : processMesh o st m = .ok st') :
    ∃ materialIndices colors,
      (if (selectedObject st m).isCollision then validateCollisionMesh m.name m.edges
       else .ok ()) = .ok ()
      ∧ materialIndicesFor o m (selectedObject st m).isCollision = .ok materialIndices
      ∧ checkFaceMaterialIndices m materialIndices = .ok ()
      ∧ (if (selectedObject st m).isCollision then .ok [] else meshVertexColors o m)
          = .ok colors
      ∧ st' = { selectedState st m with
                geometryObjects :=
                  (selectedState st m).geometryObjects.set (selectedIndex st m)
                    (updateGeometryObject o m (selectedObject st m) materialIndices colors) } := by
  unfold processMesh at h
  split at h
  · simp at h
  next hval =>
    split at h
    · simp at h
    next materialIndices hmi =>
      split at h
      · simp at h
      next hchk =>
        split at h
        · simp at h
        next colors hcolors =>
          cases h
          exact ⟨materialIndices, colors, hval, hmi, hchk, hcolors, rfl⟩

lemma goProj_comm {o : ASEBuildOptions} {m : MeshInput} (go : ASEGeometryObject)
    (materialIndices : List ℕ) (colors : List Vec3) :
    (updateGeometryObject o m go materialIndices colors).isCollision = go.isCollision
    ∧ (updateGeometryObject o m go materialIndices colors).name = go.name :=
  ⟨rfl, rfl⟩

def goProj (go : ASEGeometryObject) : Bool × String := (go.isCollision, go.name)

lemma select_reuse {st : BuildState} {name : String} {i : ℕ}
    (hc : is_collision_name name = false) (hm : st.mainIndex = some i) :
    selectGeometryObject st name = (st, i) := by
  simp [selectGeometryObject, hc, hm]

lemma select_new {st : BuildState} {name : String}
    (h : is_collision_name name = true ∨ st.mainIndex = none) :
    selectGeometryObject st name =
      ({ geometryObjects :=
            st.geometryObjects ++ [{ name := name, isCollision := is_collision_name name }],
         mainIndex :=
            if !is_collision_name name then some st.geometryObjects.length
            else st.mainIndex },
       st.geometryObjects.length) := by
  rcases h with h | h
  · simp [selectGeometryObject, h]
  · cases hc : is_collision_name name <;> simp [selectGeometryObject, h, hc]

@[simp] lemma update_isCollision (o : ASEBuildOptions) (m : MeshInput)
    (go : ASEGeometryObject) (mi : List ℕ) (cs : List Vec3) :
    (updateGeometryObject o m go mi cs).isCollision = go.isCollision := rfl

@[simp] lemma update_name (o : ASEBuildOptions) (m : MeshInput)
    (go : ASEGeometryObject) (mi : List ℕ) (cs : List Vec3) :
    (updateGeometryObject o m go mi cs).name = go.name := rfl

lemma selectedObject_new {st : BuildState} {m : MeshInput}
    (h : is_collision_name m.name = true ∨ st.mainIndex = none) :
    selectedObject st m = { name := m.name, isCollision := is_collision_name m.name } := by
  unfold selectedObject selectedState selectedIndex
  rw [select_new h]
  exact getD_append_length _ _ _

lemma selectedObject_reuse {st : BuildState} {m : MeshInput} {i : ℕ}
    (hc : is_collision_name m.name = false) (hm : st.mainIndex = some i) :
    selectedObject st m = st.geometryObjects.getD i {} := by
  unfold selectedObject selectedState selectedIndex
  rw [select_reuse hc hm]

lemma processMesh_proj {o : ASEBuildOptions} {st : BuildState} {m : MeshInput}
    {st' : BuildState} (h : processMesh o st m = .ok st') :
    (is_collision_name m.name = true →
        st'.geometryObjects.map goProj = st.geometryObjects.map goProj ++ [(true, m.name)]
        ∧ st'.mainIndex = st.mainIndex)
    ∧ (is_collision_name m.name = false → st.mainIndex = none →
        st'.geometryObjects.map goProj = st.geometryObjects.map goProj ++ [(false, m.name)]
        ∧ st'.mainIndex = some st.geometryObjects.length)
    ∧ (∀ i, is_collision_name m.name = false → st.mainIndex = some i →
        st'.geometryObjects.map goProj = st.geometryObjects.map goProj
        ∧ st'.mainIndex = some i) := by
  obtain ⟨materialIndices, colors, -, -, -, -, hst⟩ := processMesh_eq_ok h
  have hgos : st'.geometryObjects
      = (selectedState st m).geometryObjects.set (selectedIndex st m)
          (updateGeometryObject o m (selectedObject st m) materialIndices colors) := by
    rw [hst]
  have hmain : st'.mainIndex = (selectedState st m).mainIndex := by rw [hst]
  refine ⟨fun hc => ?_, fun hc hm => ?_, fun i hc hm => ?_⟩
  · rw [selectedObject_new (Or.inl hc)] at hgos
    unfold selectedState selectedIndex at hgos
    unfold selectedState at hmain
    rw [select_new (Or.inl hc)] at hgos hmain
    simp only at hgos hmain
    rw [set_append_singleton] at hgos
    rw [hgos, hmain]
    simp [goProj, hc]
  · rw [selectedObject_new (Or.inr hm)] at hgos
    unfold selectedState selectedIndex at hgos
    unfold selectedState at hmain
    rw [select_new (Or.inr hm)] at hgos hmain
    simp only at hgos hmain
    rw [set_append_singleton] at hgos
    rw [hgos, hmain]
    simp [goProj, hc]
  · rw [selectedObject_reuse hc hm] at hgos
    unfold selectedState selectedIndex at hgos
    unfold selectedState at hmain
    rw [select_reuse hc hm] at hgos hmain
    simp only at hgos hmain
    rw [hgos, hmain]
    refine ⟨map_set_proj goProj st.geometryObjects i _ {} ?_, hm⟩
    simp [goProj]

/-
Loop-level lemmas.
-/

lemma buildLoop_cons (o : ASEBuildOptions) (st : BuildState) (m : MeshInput)
    (ms : List MeshInput) :
    buildLoop o st (m :: ms)
      = match processMesh o st m with
        | .error e => .error e
        | .ok st' => buildLoop o st' ms := rfl

lemma buildLoop_append (o : ASEBuildOptions) (st : BuildState)
    (l₁ l₂ : List MeshInput) :
    buildLoop o st (l₁ ++ l₂)
      = match buildLoop o st l₁ with
        | .error e => .error e
        | .ok st' => buildLoop o st' l₂ := by
  induction l₁ generalizing st with
  | nil => simp [buildLoop]
  | cons m ms ih =>
    simp only [List.cons_append, buildLoop]
    cases processMesh o st m with
    | error e => rfl
    | ok st' => exact ih st'

lemma buildLoop_inv {o : ASEBuildOptions} {P : BuildState → Prop}
    (hstep : ∀ st m st', processMesh o st m = .ok st' → P st → P st') :
    ∀ (ms : List MeshInput) (st st' : BuildState),
      buildLoop o st ms = .ok st' → P st → P st' := by
  intro ms
  induction ms with
  | nil => intro st st' h hp; cases h; exact hp
  | cons m rest ih =>
    intro st st' h hp
    rw [buildLoop_cons] at h
    cases hpm : processMesh o st m with
    | error e => rw [hpm] at h; simp at h
    | ok st₁ =>
      rw [hpm] at h
      exact ih st₁ st' h (hstep st m st₁ hpm hp)

lemma build_ase_eq_ok {o : ASEBuildOptions} {ms : List MeshInput} {a : ASE}
    (h : build_ase o ms = .ok a) :
    ∃ st, buildLoop o {} ms = .ok st
      ∧ st.geometryObjects.length ≠ 0
      ∧ st.mainIndex.isSome = true
      ∧ a = { materials := o.materials, geometryObjects := st.geometryObjects } := by
  unfold build_ase at h
  split at h
  · simp at h
  next st hst =>
    split at h
    · simp at h
    · split at h
      · simp at h
      next hmain =>
        cases h
        next hlen =>
          refine ⟨st, hst, hlen, Option.isSome_iff_ne_none.mpr ?_, rfl⟩
          simpa using hmain

/-
Projection invariant: the main-object index always points at the unique
non-collision object.
-/

def projInv (gos : List (Bool × String)) (mi : Option ℕ) : Prop :=
  match mi with
  | none => gos.filter (fun q => !q.1) = []
  | some i => i < gos.length ∧ (gos.getD i (true, "")).1 = false
      ∧ (gos.filter (fun q => !q.1)).length = 1

lemma processMesh_projInv {o : ASEBuildOptions} {st st' : BuildState} {m : MeshInput}
    (h : processMesh o st m = .ok st')
    (hinv : projInv (st.geometryObjects.map goProj) st.mainIndex) :
    projInv (st'.geometryObjects.map goProj) st'.mainIndex := by
  obtain ⟨hcoll, hnone, hsome⟩ := processMesh_proj h
  cases hc : is_collision_name m.name with
  | true =>
    obtain ⟨hg, hm⟩ := hcoll hc
    rw [hg, hm]
    cases hmi : st.mainIndex with
    | none =>
      rw [hmi] at hinv
      simp only [projInv] at hinv ⊢
      simp only [List.filter_append, hinv]
      simp
    | some i =>
      rw [hmi] at hinv
      simp only [projInv] at hinv ⊢
      obtain ⟨hlt, hget, hcnt⟩ := hinv
      refine ⟨by simpa using Nat.lt_succ_of_lt hlt, ?_, ?_⟩
      · rwa [getD_append_left _ hlt]
      · simp only [List.filter_append]
        simpa using hcnt
  | false =>
    cases hmi : st.mainIndex with
    | none =>
      obtain ⟨hg, hm⟩ := hnone hc hmi
      rw [hg, hm]
      rw [hmi] at hinv
      simp only [projInv] at hinv ⊢
      refine ⟨by simp, ?_, ?_⟩
      · rw [show st.geometryObjects.length
              = (st.geometryObjects.map goProj).length by simp]
        rw [getD_append_length]
      · simp only [List.filter_append, hinv]
        simp
    | some i =>
      obtain ⟨hg, hm⟩ := hsome i hc hmi
      rw [hg, hm]
      rw [hmi] at hinv
      exact hinv

lemma buildLoop_collision_objects (o : ASEBuildOptions) :
    ∀ (ms : List MeshInput) (st st' : BuildState),
      buildLoop o st ms = .ok st' →
      projInv (st.geometryObjects.map goProj) st.mainIndex →
      ((st'.geometryObjects.map goProj).filter (fun q => q.1)
          = (st.geometryObjects.map goProj).filter (fun q => q.1)
            ++ (ms.filter (fun m => is_collision_name m.name)).map (fun m => (true, m.name)))
      ∧ st'.mainIndex.isSome
          = (st.mainIndex.isSome || ms.any (fun m => !is_collision_name m.name)) := by
  intro ms
  induction ms with
  | nil =>
    intro st st' h _
    cases h
    simp
  | cons m rest ih =>
    intro st st' h hinv
    rw [buildLoop_cons] at h
    cases hpm : processMesh o st m with
    | error e => rw [hpm] at h; simp at h
    | ok st₁ =>
      rw [hpm] at h
      have hinv₁ := processMesh_projInv hpm hinv
      obtain ⟨hrest, hmain⟩ := ih st₁ st' h hinv₁
      obtain ⟨hcoll, hnone, hsome⟩ := processMesh_proj hpm
      cases hc : is_collision_name m.name with
      | true =>
        obtain ⟨hg, hm⟩ := hcoll hc
        rw [hg] at hrest
        rw [hm] at hmain
        constructor
        · rw [hrest]
          simp [hc]
        · rw [hmain]
          simp [hc]
      | false =>
        cases hmi : st.mainIndex with
        | none =>
          obtain ⟨hg, hm⟩ := hnone hc hmi
          rw [hg] at hrest
          rw [hm] at hmain
          constructor
          · rw [hrest]
            simp [hc]
          · rw [hmain]
            simp [hmi, hc]
        | some i =>
          obtain ⟨hg, hm⟩ := hsome i hc hmi
          rw [hg] at hrest
          rw [hm] at hmain
          constructor
          · rw [hrest]
            simp [hc]
          · rw [hmain]
            simp [hmi, hc]

lemma filter_map_goProj_coll (l : List ASEGeometryObject) :
    ((l.map goProj).filter (fun q => q.1)).map (fun q => q.2)
      = (l.filter (fun g => g.isCollision)).map (fun g => g.name) := by
  induction l with
  | nil => rfl
  | cons g gs ih =>
    cases hg : g.isCollision <;> simp [goProj, hg, ih]

lemma filter_map_goProj_noncoll (l : List ASEGeometryObject) :
    ((l.map goProj).filter (fun q => !q.1))
      = (l.filter (fun g => !g.isCollision)).map goProj := by
  induction l with
  | nil => rfl
  | cons g gs ih =>
    cases hg : g.isCollision <;> simp [goProj, hg, ih]

lemma getD_map_goProj (l : List ASEGeometryObject) (i : ℕ) (h : i < l.length) :
    (l.map goProj).getD i (true, "") = goProj (l.getD i {}) := by
  induction l generalizing i with
  | nil => simp at h
  | cons g gs ih =>
    cases i with
    | zero => simp
    | succ n => simp only [List.map_cons, List.getD_cons_succ]; exact ih n (by simpa using h)

/-
Concrete fixtures used by witnesses: a one-triangle mesh and variants.
-/

def optsEx : ASEBuildOptions := { materials := [7] }

def triEx : LoopTriangle :=
  { loops := (0, 1, 2), materialIndex := 0, polygonIndex := 0,
    normal := (0, 0, 1), splitNormals := ((0, 0, 1), (0, 0, 1), (0, 0, 1)) }

def mEx : MeshInput :=
  { name := "Cube", vertices := [(0, 0, 0), (1, 0, 0), (0, 1, 0)],
    matrixWorld := identityMat4, decomposedScale := [1, 1, 1],
    loops := [0, 1, 2], loopTriangles := [triEx],
    materialSlots := [some 7], polyGroups := [3],
    uvLayers := [[(0, 0), (1, 0), (0, 1)]], edges := [],
    activeColorName := "Col", colorAttributes := [] }

def aEx : ASE := (build_ase optsEx [mEx]).toOption.getD {}

def mInvEx : MeshInput := { mEx with decomposedScale := [-1, 1, 1] }

def aInvEx : ASE := (build_ase optsEx [mInvEx]).toOption.getD {}

def mCollEx : MeshInput :=
  { mEx with name := "MCDCX_Cube", edges := [{ isManifold := true, isConvex := true }] }

def mCollBadEx : MeshInput :=
  { mEx with name := "MCDCX_Bad", edges := [{ isManifold := false, isConvex := true }] }

def aCollPairEx : ASE := (build_ase optsEx [mEx, mCollEx]).toOption.getD {}

def aPairEx : ASE := (build_ase optsEx [mEx, mInvEx]).toOption.getD {}

def mOOBEx : MeshInput :=
  { mEx with loopTriangles := [triEx, { triEx with materialIndex := 5 }] }

def mUV2Ex : MeshInput :=
  { mEx with uvLayers := [[(0, 0), (1, 0), (0, 1)], [(0, 0), (1, 0), (0, 1)]] }

def aUV2Ex : ASE := (build_ase optsEx [mUV2Ex]).toOption.getD {}

def stCollEx : BuildState := (buildLoop optsEx {} [mCollEx]).toOption.getD {}

/-- C1: for every source mesh processed by build_ase, winding/normal
inversion is the XOR of the parity of negative axes in the decomposed
scale of the vertex transform with the should_invert_normals override:
odd parity with override false inverts, even parity with override true
inverts, odd parity with override true does not invert, even parity with
override false does not invert. -/
theorem c1_winding_inversion_xor (o : ASEBuildOptions) (scale : List ℚ) :
    computeShouldInvertNormals o scale
      = Bool.xor (decide (negativeScalingAxes scale % 2 = 1)) o.shouldInvertNormals
    ∧ (negativeScalingAxes scale % 2 = 1 → o.shouldInvertNormals = false →
        computeShouldInvertNormals o scale = true)
    ∧ (negativeScalingAxes scale % 2 = 0 → o.shouldInvertNormals = true →
        computeShouldInvertNormals o scale = true)
    ∧ (negativeScalingAxes scale % 2 = 1 → o.shouldInvertNormals = true →
        computeShouldInvertNormals o scale = false)
    ∧ (negativeScalingAxes scale % 2 = 0 → o.shouldInvertNormals = false →
        computeShouldInvertNormals o scale = false) := by
  rcases Nat.mod_two_eq_zero_or_one (negativeScalingAxes scale) with hp | hp <;>
    cases ho : o.shouldInvertNormals <;>
      simp [computeShouldInvertNormals, hp, ho]

/-- Witness for C1 at a concrete input: one negative scale axis, override
left at its default of false, so the mesh is inverted. -/
theorem c1_winding_inversion_xor_witness :
    negativeScalingAxes [(-1 : ℚ), 1, 1] % 2 = 1
    ∧ ({} : ASEBuildOptions).shouldInvertNormals = false
    ∧ computeShouldInvertNormals {} [(-1 : ℚ), 1, 1] = true :=
  ⟨by decide, by decide,
    (c1_winding_inversion_xor {} [(-1 : ℚ), 1, 1]).2.1 (by decide) (by decide)⟩

/-- C4: in every successfully built document, the collision geometry
objects are exactly one fresh object per collision-named source mesh, in
order and carrying that mesh's name (never merged), while all non-collision
meshes merge into a single main object: exactly one non-collision geometry
object exists. -/
theorem c4_collision_meshes_separate {o : ASEBuildOptions} {ms : List MeshInput}
    {a : ASE} (h : build_ase o ms = .ok a) :
    (a.geometryObjects.filter (fun g => g.isCollision)).map (fun g => g.name)
        = (ms.filter (fun m => is_collision_name m.name)).map (fun m => m.name)
    ∧ (a.geometryObjects.filter (fun g => !g.isCollision)).length = 1 := by
  obtain ⟨st, hloop, hlen, hmain, ha⟩ := build_ase_eq_ok h
  obtain ⟨hcolls, -⟩ := buildLoop_collision_objects o ms {} st hloop (by rfl)
  have hinv := buildLoop_inv (fun st m st' hpm hp => processMesh_projInv hpm hp)
    ms {} st hloop (by rfl)
  constructor
  · have hnames := congrArg (List.map (fun q : Bool × String => q.2)) hcolls
    rw [filter_map_goProj_coll] at hnames
    rw [ha]
    simp only at hnames
    rw [hnames]
    simp [List.map_map]
  · cases hmi : st.mainIndex with
    | none => rw [hmi] at hmain; simp at hmain
    | some i =>
      rw [hmi] at hinv
      simp only [projInv] at hinv
      obtain ⟨-, -, hcnt⟩ := hinv
      rw [filter_map_goProj_noncoll] at hcnt
      rw [ha]
      simpa using hcnt

/-- Witness for C4: a main mesh plus one collision mesh; the built document
has exactly the collision object named like the collision mesh and exactly
one non-collision object. -/
theorem c4_collision_meshes_separate_witness :
    (aCollPairEx.geometryObjects.filter (fun g => g.isCollision)).map (fun g => g.name)
        = ([mEx, mCollEx].filter (fun m => is_collision_name m.name)).map (fun m => m.name)
    ∧ (aCollPairEx.geometryObjects.filter (fun g => !g.isCollision)).length = 1 :=
  @c4_collision_meshes_separate optsEx [mEx, mCollEx] aCollPairEx (by rfl)

/-- C8: build_ase returns a document only when a non-collision geometry
object was produced; after the loop it fails when zero geometry objects
were produced, and fails with a distinct error when every produced object
is a collision object. -/
theorem c8_document_requires_main (o : ASEBuildOptions) (ms : List MeshInput) :
    (∀ a, build_ase o ms = .ok a →
        a.geometryObjects ≠ [] ∧ ∃ go ∈ a.geometryObjects, go.isCollision = false)
    ∧ (∀ st, buildLoop o {} ms = .ok st → st.geometryObjects = [] →
        build_ase o ms = .error .noMeshObjectsSelected)
    ∧ (∀ st, buildLoop o {} ms = .ok st → st.geometryObjects ≠ [] →
        st.mainIndex = none → build_ase o ms = .error .noNonCollisionMesh)
    ∧ ASEBuildError.noMeshObjectsSelected ≠ ASEBuildError.noNonCollisionMesh := by
  refine ⟨?_, ?_, ?_, by decide⟩
  · intro a h
    obtain ⟨st, hloop, hlen, hmain, ha⟩ := build_ase_eq_ok h
    have hinv := buildLoop_inv (fun st m st' hpm hp => processMesh_projInv hpm hp)
      ms {} st hloop (by rfl)
    cases hmi : st.mainIndex with
    | none => rw [hmi] at hmain; simp at hmain
    | some i =>
      rw [hmi] at hinv
      simp only [projInv] at hinv
      obtain ⟨hilt, hip, -⟩ := hinv
      have hi : i < st.geometryObjects.length := by simpa using hilt
      rw [getD_map_goProj _ _ hi] at hip
      refine ⟨?_, ?_⟩
      · rw [ha]
        show st.geometryObjects ≠ []
        intro hgoal
        rw [hgoal] at hi
        simp at hi
      · rw [ha]
        show ∃ go ∈ st.geometryObjects, go.isCollision = false
        exact ⟨st.geometryObjects.getD i {}, getD_mem _ hi, hip⟩
  · intro st hst hempty
    unfold build_ase
    rw [hst]
    simp [hempty]
  · intro st hst hne hnone
    unfold build_ase
    rw [hst]
    have hlen : st.geometryObjects.length ≠ 0 := by
      simpa [List.length_eq_zero] using hne
    simp [hlen, hnone]

/-- Witness for C8: a document built solely from a collision mesh is
rejected with the dedicated error. -/
theorem c8_document_requires_main_witness :
    build_ase optsEx [mCollEx] = .error .noNonCollisionMesh :=
  (c8_document_requires_main optsEx [mCollEx]).2.2.1 stCollEx (by rfl)
    (by decide) (by decide)

/-
Per-object membership invariants.
-/

lemma selectedState_gos_cases (st : BuildState) (m : MeshInput) :
    (selectedState st m).geometryObjects = st.geometryObjects
    ∨ (selectedState st m).geometryObjects
        = st.geometryObjects ++ [{ name := m.name, isCollision := is_collision_name m.name }] := by
  unfold selectedState selectGeometryObject
  by_cases hcond : (!is_collision_name m.name && st.mainIndex.isSome) = true
  · left; rw [if_pos hcond]
  · right; rw [if_neg hcond]

lemma processMesh_pred {o : ASEBuildOptions} {m : MeshInput} {st st' : BuildState}
    {Q : ASEGeometryObject → Prop}
    (h : processMesh o st m = .ok st')
    (hP : ∀ go ∈ st.geometryObjects, Q go)
    (hQdefault : Q {})
    (hQfresh : Q { name := m.name, isCollision := is_collision_name m.name })
    (hQupdate : ∀ go mi cs,
        materialIndicesFor o m go.isCollision = .ok mi →
        (if go.isCollision then .ok [] else meshVertexColors o m) = .ok cs →
        Q go → Q (updateGeometryObject o m go mi cs)) :
    ∀ go ∈ st'.geometryObjects, Q go := by
  obtain ⟨mi, cs, hval, hmi, hchk, hcs, hst⟩ := processMesh_eq_ok h
  have hselP : ∀ go ∈ (selectedState st m).geometryObjects, Q go := by
    rcases selectedState_gos_cases st m with hcase | hcase <;> rw [hcase]
    · exact hP
    · intro go hmem
      rcases List.mem_append.mp hmem with hmem' | hmem'
      · exact hP go hmem'
      · rw [List.mem_singleton.mp hmem']
        exact hQfresh
  have hselObj : Q (selectedObject st m) := by
    by_cases hlt : selectedIndex st m < (selectedState st m).geometryObjects.length
    · exact hselP _ (getD_mem _ hlt)
    · unfold selectedObject
      rw [List.getD_eq_default _ _ (le_of_not_lt hlt)]
      exact hQdefault
  subst hst
  intro go hmem
  simp only at hmem
  rcases List.mem_or_eq_of_mem_set hmem with hmem' | heq
  · exact hselP go hmem'
  · rw [heq]
    exact hQupdate _ mi cs hmi hcs hselObj

lemma buildLoop_pred {o : ASEBuildOptions} {Q : ASEGeometryObject → Prop}
    (hQdefault : Q {})
    (hQfresh : ∀ name, Q { name := name, isCollision := is_collision_name name })
    (hQupdate : ∀ (m : MeshInput) go mi cs,
        materialIndicesFor o m go.isCollision = .ok mi →
        (if go.isCollision then .ok [] else meshVertexColors o m) = .ok cs →
        Q go → Q (updateGeometryObject o m go mi cs)) :
    ∀ (ms : List MeshInput) (st st' : BuildState),
      buildLoop o st ms = .ok st' → (∀ go ∈ st.geometryObjects, Q go) →
      ∀ go ∈ st'.geometryObjects, Q go :=
  buildLoop_inv (fun _ m _ hpm hp =>
    processMesh_pred hpm hp hQdefault (hQfresh m.name) (hQupdate m))

lemma meshFaces_smoothing_bounds {m : MeshInput} {vo : ℕ} {mi : List ℕ} {ic : Bool}
    {ord : List ℕ} {f : ASEFace} (hf : f ∈ meshFaces m vo mi ic ord) :
    0 ≤ f.smoothing ∧ f.smoothing < 32 := by
  obtain ⟨lt, -, hlt⟩ := List.mem_map.mp hf
  have h0 : f.smoothing = faceSmoothing (m.polyGroups.getD lt.polygonIndex 0) := by
    rw [← hlt]
  rw [h0]
  unfold faceSmoothing SMOOTHING_GROUP_MAX
  constructor
  · exact Int.emod_nonneg _ (by norm_num)
  · exact Int.emod_lt_of_pos _ (by norm_num)

lemma meshVertexColors_empty {o : ASEBuildOptions} {m : MeshInput}
    (h : (o.shouldExportVertexColors && o.hasVertexColors) = false) :
    meshVertexColors o m = .ok [] := by
  unfold meshVertexColors
  rw [if_neg (by simp [h])]

lemma appendUVLayers_nil_right (gos : List ASEUVLayer) : appendUVLayers gos [] = gos := by
  cases gos <;> rfl

lemma appendUVLayers_tvf {gos : List ASEUVLayer} {mds : List (List Vec3)}
    (h : ∀ l ∈ gos, l.textureVertexFaces = []) :
    ∀ l ∈ appendUVLayers gos mds, l.textureVertexFaces = [] := by
  induction mds generalizing gos with
  | nil => rw [appendUVLayers_nil_right]; exact h
  | cons md mds ih =>
    cases gos with
    | nil =>
      intro l hl
      rcases List.mem_cons.mp hl with heq | hl2
      · rw [heq]
      · exact ih (by simp) l hl2
    | cons g gs =>
      intro l hl
      rcases List.mem_cons.mp hl with heq | hl2
      · rw [heq]
        exact h g (by simp)
      · exact ih (fun l2 hl3 => h l2 (List.mem_cons_of_mem _ hl3)) l hl2

@[simp] lemma update_faces (o : ASEBuildOptions) (m : MeshInput)
    (go : ASEGeometryObject) (mi : List ℕ) (cs : List Vec3) :
    (updateGeometryObject o m go mi cs).faces
      = go.faces ++ meshFaces m go.vertexOffset mi go.isCollision
          (loopTriangleIndexOrder (computeShouldInvertNormals o m.decomposedScale)) := rfl

@[simp] lemma update_vertexColors (o : ASEBuildOptions) (m : MeshInput)
    (go : ASEGeometryObject) (mi : List ℕ) (cs : List Vec3) :
    (updateGeometryObject o m go mi cs).vertexColors = go.vertexColors ++ cs := rfl

@[simp] lemma update_vertices (o : ASEBuildOptions) (m : MeshInput)
    (go : ASEGeometryObject) (mi : List ℕ) (cs : List Vec3) :
    (updateGeometryObject o m go mi cs).vertices
      = go.vertices ++ m.vertices.map (applyMat4 (mat4Mul rotZPi m.matrixWorld)) := rfl

@[simp] lemma update_faceNormals (o : ASEBuildOptions) (m : MeshInput)
    (go : ASEGeometryObject) (mi : List ℕ) (cs : List Vec3) :
    (updateGeometryObject o m go mi cs).faceNormals
      = if go.isCollision then go.faceNormals
        else go.faceNormals ++ meshFaceNormals m go.vertexOffset
          (computeShouldInvertNormals o m.decomposedScale)
          (loopTriangleIndexOrder (computeShouldInvertNormals o m.decomposedScale)) := rfl

@[simp] lemma update_uvLayers (o : ASEBuildOptions) (m : MeshInput)
    (go : ASEGeometryObject) (mi : List ℕ) (cs : List Vec3) :
    (updateGeometryObject o m go mi cs).uvLayers
      = if go.isCollision then go.uvLayers
        else appendUVLayers go.uvLayers (meshUVValueLists m) := rfl

@[simp] lemma update_textureVertexFaces (o : ASEBuildOptions) (m : MeshInput)
    (go : ASEGeometryObject) (mi : List ℕ) (cs : List Vec3) :
    (updateGeometryObject o m go mi cs).textureVertexFaces
      = if go.isCollision then go.textureVertexFaces
        else go.textureVertexFaces ++ meshTextureVertexFaces m go.textureVertexOffset
          (loopTriangleIndexOrder (computeShouldInvertNormals o m.decomposedScale)) := rfl

@[simp] lemma update_vertexOffset (o : ASEBuildOptions) (m : MeshInput)
    (go : ASEGeometryObject) (mi : List ℕ) (cs : List Vec3) :
    (updateGeometryObject o m go mi cs).vertexOffset
      = go.vertices.length + m.vertices.length := by
  show (go.vertices ++ m.vertices.map (applyMat4 (mat4Mul rotZPi m.matrixWorld))).length = _
  simp

@[simp] lemma update_textureVertexOffset (o : ASEBuildOptions) (m : MeshInput)
    (go : ASEGeometryObject) (mi : List ℕ) (cs : List Vec3) :
    (updateGeometryObject o m go mi cs).textureVertexOffset
      = go.textureVertexOffset + m.loops.length := rfl

/-- C3: every face stored by build_ase has smoothing (raw_group - 1) mod 32,
hence in [0, 31]; raw groups 3 and 35 collide to the same stored value. -/
theorem c3_smoothing_mod32 {o : ASEBuildOptions} {ms : List MeshInput} {a : ASE}
    (h : build_ase o ms = .ok a) :
    (∀ go ∈ a.geometryObjects, ∀ f ∈ go.faces, 0 ≤ f.smoothing ∧ f.smoothing < 32)
    ∧ (∀ (m : MeshInput) (vo : ℕ) (mi : List ℕ) (ic : Bool) (ord : List ℕ),
        (meshFaces m vo mi ic ord).map (fun f => f.smoothing)
          = m.loopTriangles.map
              (fun lt => faceSmoothing (m.polyGroups.getD lt.polygonIndex 0)))
    ∧ faceSmoothing 3 = faceSmoothing 35 := by
  obtain ⟨st, hloop, -, -, ha⟩ := build_ase_eq_ok h
  refine ⟨?_, ?_, by decide⟩
  · rw [ha]
    show ∀ go ∈ st.geometryObjects, ∀ f ∈ go.faces, 0 ≤ f.smoothing ∧ f.smoothing < 32
    refine buildLoop_pred ?_ ?_ ?_ ms {} st hloop (by simp)
    · simp
    · intro name; simp
    · intro m go mi cs _ _ hgo f hf
      rw [update_faces] at hf
      rcases List.mem_append.mp hf with hold | hnew
      · exact hgo f hold
      · exact meshFaces_smoothing_bounds hnew
  · intro m vo mi ic ord
    simp only [meshFaces, List.map_map]
    rfl

/-- Witness for C3 at a successful concrete build: the first stored face
(raw group 3) has smoothing in range. -/
theorem c3_smoothing_mod32_witness :
    0 ≤ ((aEx.geometryObjects.getD 0 {}).faces.getD 0 {}).smoothing
    ∧ ((aEx.geometryObjects.getD 0 {}).faces.getD 0 {}).smoothing < 32 :=
  (c3_smoothing_mod32 (by rfl : build_ase optsEx [mEx] = .ok aEx)).1
    (aEx.geometryObjects.getD 0 {}) (getD_mem _ (by decide))
    ((aEx.geometryObjects.getD 0 {}).faces.getD 0 {}) (getD_mem _ (by decide))

lemma build_no_colors {o : ASEBuildOptions} {ms : List MeshInput} {a : ASE}
    (hflag : (o.shouldExportVertexColors && o.hasVertexColors) = false)
    (h : build_ase o ms = .ok a) :
    ∀ go ∈ a.geometryObjects, go.vertexColors = [] := by
  obtain ⟨st, hloop, -, -, ha⟩ := build_ase_eq_ok h
  rw [ha]
  show ∀ go ∈ st.geometryObjects, go.vertexColors = []
  refine buildLoop_pred ?_ ?_ ?_ ms {} st hloop (by simp)
  · rfl
  · intro name; rfl
  · intro m go mi cs _ hcs hgo
    rw [update_vertexColors]
    have hcs0 : cs = [] := by
      by_cases hic : go.isCollision = true
      · rw [if_pos hic] at hcs
        injection hcs with h2
        exact h2.symm
      · rw [if_neg hic] at hcs
        rw [meshVertexColors_empty hflag] at hcs
        injection hcs with h2
        exact h2.symm
    rw [hcs0, hgo]
    rfl

/-- C10: vertex colors are appended only when both
should_export_vertex_colors and has_vertex_colors hold; has_vertex_colors
defaults to false and the collection export operator never sets it, so a
collection export never produces vertex colors. -/
theorem c10_collection_export_no_colors (e : String) (t : Mat4) (mats : List ℕ)
    (o : ASEBuildOptions) (ms msc : List MeshInput) (a ac : ASE) :
    ({} : ASEBuildOptions).hasVertexColors = false
    ∧ (collectionExportOptions e t mats).hasVertexColors = false
    ∧ (collectionExportOptions e t mats).shouldExportVertexColors = true
    ∧ ((o.shouldExportVertexColors && o.hasVertexColors) = false →
        build_ase o ms = .ok a → ∀ go ∈ a.geometryObjects, go.vertexColors = [])
    ∧ (build_ase (collectionExportOptions e t mats) msc = .ok ac →
        ∀ go ∈ ac.geometryObjects, go.vertexColors = []) :=
  ⟨rfl, rfl, rfl, fun hflag h => build_no_colors hflag h,
    fun h => build_no_colors (by rfl) h⟩

/-- Witness for C10: a collection-export build of the fixture mesh yields
an object with no vertex colors. -/
theorem c10_collection_export_no_colors_witness :
    (aEx.geometryObjects.getD 0 {}).vertexColors = [] :=
  (c10_collection_export_no_colors "EVALUATED" identityMat4 [7] optsEx [mEx] [mEx]
      aEx aEx).2.2.2.2 (by rfl) (aEx.geometryObjects.getD 0 {}) (getD_mem _ (by decide))

/-- Counterexample for C9: a mesh with two UV channels and one triangle
builds to an object whose per-channel texture_vertex_faces lists are both
empty (not one triple per face), the index triples living instead in a
single object-level list. -/
theorem c9_uv_counterexample :
    build_ase optsEx [mUV2Ex] = .ok aUV2Ex
    ∧ (aUV2Ex.geometryObjects.getD 0 {}).faces.length = 1
    ∧ (aUV2Ex.geometryObjects.getD 0 {}).uvLayers.length = 2
    ∧ ((aUV2Ex.geometryObjects.getD 0 {}).uvLayers.getD 0 {}).textureVertexFaces = []
    ∧ ((aUV2Ex.geometryObjects.getD 0 {}).uvLayers.getD 1 {}).textureVertexFaces = []
    ∧ (aUV2Ex.geometryObjects.getD 0 {}).textureVertexFaces = [(0, 1, 2)] :=
  ⟨rfl, by decide, by decide, by decide, by decide, by decide⟩

/-- C9 (amended): each UV channel owns only its texture vertices; the
texture-vertex-face index triples are stored once per geometry object in a
single shared list with one triple per face of a non-collision object,
while every per-channel texture_vertex_faces list stays empty. -/
theorem c9_uv_channel_layout {o : ASEBuildOptions} {ms : List MeshInput} {a : ASE}
    (h : build_ase o ms = .ok a) :
    ∀ go ∈ a.geometryObjects,
      (∀ l ∈ go.uvLayers, l.textureVertexFaces = [])
      ∧ (go.isCollision = false →
          go.textureVertexFaces.length = go.faces.length) := by
  obtain ⟨st, hloop, -, -, ha⟩ := build_ase_eq_ok h
  rw [ha]
  show ∀ go ∈ st.geometryObjects, _
  refine buildLoop_pred ?_ ?_ ?_ ms {} st hloop (by simp)
  · exact ⟨by simp, fun _ => rfl⟩
  · intro name; exact ⟨by simp, fun _ => rfl⟩
  · intro m go mi cs _ _ hgo
    obtain ⟨hgoUV, hgoLen⟩ := hgo
    constructor
    · rw [update_uvLayers]
      by_cases hic : go.isCollision = true
      · rw [if_pos hic]; exact hgoUV
      · rw [if_neg hic]; exact appendUVLayers_tvf hgoUV
    · intro hic2
      rw [update_isCollision] at hic2
      rw [update_textureVertexFaces, update_faces, if_neg (by simp [hic2])]
      simp [meshTextureVertexFaces, meshFaces, hgoLen hic2]

/-- Witness for C9 (amended) at the two-UV-channel fixture. -/
theorem c9_uv_channel_layout_witness :
    (∀ l ∈ (aUV2Ex.geometryObjects.getD 0 {}).uvLayers, l.textureVertexFaces = [])
    ∧ ((aUV2Ex.geometryObjects.getD 0 {}).isCollision = false →
        (aUV2Ex.geometryObjects.getD 0 {}).textureVertexFaces.length
          = (aUV2Ex.geometryObjects.getD 0 {}).faces.length) :=
  c9_uv_channel_layout (by rfl : build_ase optsEx [mUV2Ex] = .ok aUV2Ex)
    (aUV2Ex.geometryObjects.getD 0 {}) (getD_mem _ (by decide))

/-
Error propagation lemmas.
-/

lemma build_ase_error {o : ASEBuildOptions} {ms : List MeshInput} {e : ASEBuildError}
    (h : buildLoop o {} ms = .error e) : build_ase o ms = .error e := by
  unfold build_ase
  rw [h]

lemma validateCollisionMesh_error {name : String} {edges : List MeshEdge}
    (hbad : ∃ e ∈ edges, e.isManifold = false ∨ e.isConvex = false) :
    validateCollisionMesh name edges = .error (.collisionNotManifold name)
    ∨ validateCollisionMesh name edges = .error (.collisionNotConvex name) := by
  induction edges with
  | nil => obtain ⟨e, he, -⟩ := hbad; simp at he
  | cons e rest ih =>
    by_cases hm : e.isManifold = false
    · left; simp [validateCollisionMesh, hm]
    · have hm2 : e.isManifold = true := by revert hm; cases e.isManifold <;> simp
      by_cases hcv : e.isConvex = false
      · right; simp [validateCollisionMesh, hm2, hcv]
      · have hcv2 : e.isConvex = true := by revert hcv; cases e.isConvex <;> simp
        obtain ⟨e2, he2, hbad2⟩ := hbad
        rcases List.mem_cons.mp he2 with heq | hmem
        · rw [heq] at hbad2
          rcases hbad2 with h2 | h2
          · rw [hm2] at h2; cases h2
          · rw [hcv2] at h2; cases h2
        · have := ih ⟨e2, hmem, hbad2⟩
          simpa [validateCollisionMesh, hm2, hcv2] using this

lemma processMesh_collision_bad {o : ASEBuildOptions} {st : BuildState} {m : MeshInput}
    (hc : is_collision_name m.name = true)
    (hbad : ∃ e ∈ m.edges, e.isManifold = false ∨ e.isConvex = false) :
    processMesh o st m = .error (.collisionNotManifold m.name)
    ∨ processMesh o st m = .error (.collisionNotConvex m.name) := by
  have hobj := @selectedObject_new st m (Or.inl hc)
  have hic : (selectedObject st m).isCollision = true := by rw [hobj]; exact hc
  unfold processMesh
  rw [hic]
  simp only [if_true]
  rcases validateCollisionMesh_error hbad with h | h <;> rw [h]
  · left; rfl
  · right; rfl

lemma buildLoop_error_mem {o : ASEBuildOptions} {m : MeshInput}
    (herr : ∀ st, ∃ e, processMesh o st m = .error e) :
    ∀ (ms : List MeshInput), m ∈ ms → ∀ st, ∃ e, buildLoop o st ms = .error e := by
  intro ms
  induction ms with
  | nil => intro hm; simp at hm
  | cons m0 rest ih =>
    intro hm st
    rcases List.mem_cons.mp hm with heq | hmem
    · obtain ⟨e, he⟩ := herr st
      rw [← heq]
      exact ⟨e, by rw [buildLoop_cons, he]⟩
    · cases hpm : processMesh o st m0 with
      | error e => exact ⟨e, by rw [buildLoop_cons, hpm]⟩
      | ok st1 =>
        obtain ⟨e, he⟩ := ih hmem st1
        exact ⟨e, by rw [buildLoop_cons, hpm]; exact he⟩

/-- C6: a collision-named source mesh with a non-manifold or non-convex
edge makes the per-mesh step fail with an error naming that mesh, and the
whole build returns an error: no document, partial or otherwise, is
produced. -/
theorem c6_collision_validation_aborts {o : ASEBuildOptions} {ms : List MeshInput}
    {m : MeshInput} (hm : m ∈ ms) (hc : is_collision_name m.name = true)
    (hbad : ∃ e ∈ m.edges, e.isManifold = false ∨ e.isConvex = false) :
    (∀ st, processMesh o st m = .error (.collisionNotManifold m.name)
        ∨ processMesh o st m = .error (.collisionNotConvex m.name))
    ∧ (∃ err, build_ase o ms = .error err)
    ∧ (∀ a, build_ase o ms ≠ .ok a) := by
  have hstep : ∀ st : BuildState,
      processMesh o st m = .error (.collisionNotManifold m.name)
      ∨ processMesh o st m = .error (.collisionNotConvex m.name) :=
    fun st => @processMesh_collision_bad o st m hc hbad
  have herr : ∀ st : BuildState, ∃ e, processMesh o st m = .error e := by
    intro st
    rcases hstep st with h | h
    · exact ⟨_, h⟩
    · exact ⟨_, h⟩
  obtain ⟨e, he⟩ := buildLoop_error_mem herr ms hm {}
  refine ⟨hstep, ⟨e, build_ase_error he⟩, ?_⟩
  intro a hok
  rw [build_ase_error he] at hok
  cases hok

/-- Witness for C6: a collision mesh with a single non-manifold edge makes
the two-mesh build fail. -/
theorem c6_collision_validation_aborts_witness :
    ∃ err, build_ase optsEx [mEx, mCollBadEx] = .error err :=
  (c6_collision_validation_aborts
    (List.mem_cons_of_mem mEx (List.mem_cons_self mCollBadEx []))
    (by decide) (by decide)).2.1

lemma mem_insertAscending {y x : ℕ} {l : List ℕ} :
    y ∈ insertAscending x l ↔ y = x ∨ y ∈ l := by
  induction l with
  | nil => simp [insertAscending]
  | cons a as ih =>
    by_cases hxa : x ≤ a
    · simp [insertAscending, hxa]
    · simp only [insertAscending, if_neg hxa, List.mem_cons, ih]
      tauto

lemma mem_sortAscending {y : ℕ} {l : List ℕ} : y ∈ sortAscending l ↔ y ∈ l := by
  induction l with
  | nil => simp [sortAscending]
  | cons a as ih =>
    show y ∈ insertAscending a (sortAscending as) ↔ _
    rw [mem_insertAscending]
    simp [ih]

lemma mem_referenced {m : MeshInput} {lt : LoopTriangle} (h : lt ∈ m.loopTriangles) :
    lt.materialIndex ∈ referencedMaterialIndices m := by
  unfold referencedMaterialIndices
  rw [mem_sortAscending, List.mem_dedup]
  exact List.mem_map_of_mem _ h

lemma selectedObject_noncoll {o : ASEBuildOptions} {ms : List MeshInput}
    {st : BuildState} {m : MeshInput}
    (hpre : buildLoop o {} ms = .ok st) (hc : is_collision_name m.name = false) :
    (selectedObject st m).isCollision = false := by
  have hinv := buildLoop_inv (fun st m st' hpm hp => processMesh_projInv hpm hp)
    ms {} st hpre (by rfl)
  cases hmi : st.mainIndex with
  | none => rw [selectedObject_new (Or.inr hmi)]; exact hc
  | some i =>
    rw [selectedObject_reuse hc hmi]
    rw [hmi] at hinv
    simp only [projInv] at hinv
    obtain ⟨hlt, hip, -⟩ := hinv
    have hi : i < st.geometryObjects.length := by simpa using hlt
    rw [getD_map_goProj _ _ hi] at hip
    exact hip

lemma processMesh_material_oob {o : ASEBuildOptions} {st : BuildState}
    {m : MeshInput} {mi : List ℕ}
    (hic : (selectedObject st m).isCollision = false)
    (hmi : materialIndicesFor o m false = .ok mi)
    (hoob : ∃ i ∈ referencedMaterialIndices m, mi.length ≤ i) :
    ∃ i, mi.length ≤ i
      ∧ processMesh o st m
          = .error (.materialIndexOutOfBounds i m.name (referencedMaterialIndices m)) := by
  have hfind : ((referencedMaterialIndices m).find? (fun i => mi.length ≤ i)).isSome = true := by
    rw [List.find?_isSome]
    obtain ⟨i, hi, hle⟩ := hoob
    exact ⟨i, hi, by simpa using hle⟩
  obtain ⟨i, hfindEq⟩ := Option.isSome_iff_exists.mp hfind
  have hile : mi.length ≤ i := by simpa using List.find?_some hfindEq
  refine ⟨i, hile, ?_⟩
  simp [processMesh, hic, hmi, checkFaceMaterialIndices, hfindEq]

/-- C7 (amended): when a face of a non-collision mesh references a material
index outside the resolved slot list, the whole build fails, naming the
object, one offending index, and the full sorted set of all material
indices referenced by the faces, aggregated across all faces (a superset
of the out-of-range indices, also containing the in-range ones). -/
theorem c7_material_index_bounds {o : ASEBuildOptions} {pre post : List MeshInput}
    {m : MeshInput} {st : BuildState} {mi : List ℕ}
    (hc : is_collision_name m.name = false)
    (hpre : buildLoop o {} pre = .ok st)
    (hmi : materialIndicesFor o m false = .ok mi)
    (hoob : ∃ i ∈ referencedMaterialIndices m, mi.length ≤ i) :
    ∃ i, mi.length ≤ i
      ∧ build_ase o (pre ++ m :: post)
          = .error (.materialIndexOutOfBounds i m.name (referencedMaterialIndices m))
      ∧ (∀ lt ∈ m.loopTriangles, lt.materialIndex ∈ referencedMaterialIndices m) := by
  obtain ⟨i, hile, hpm⟩ := processMesh_material_oob (selectedObject_noncoll hpre hc) hmi hoob
  refine ⟨i, hile, ?_, fun lt hlt => mem_referenced hlt⟩
  apply build_ase_error
  rw [buildLoop_append, hpre]
  show buildLoop o st (m :: post) = _
  rw [buildLoop_cons, hpm]

/-- Witness for C7 (amended) at the fixture mesh whose faces reference
material indices 0 and 5 against a single resolved slot. -/
theorem c7_material_index_bounds_witness :
    ∃ i, ([0] : List ℕ).length ≤ i
      ∧ build_ase optsEx ([] ++ mOOBEx :: [])
          = .error (.materialIndexOutOfBounds i mOOBEx.name (referencedMaterialIndices mOOBEx))
      ∧ (∀ lt ∈ mOOBEx.loopTriangles,
          lt.materialIndex ∈ referencedMaterialIndices mOOBEx) :=
  @c7_material_index_bounds optsEx [] [] mOOBEx {} [0] (by decide) rfl rfl (by decide)

/-- Counterexample for C7 as stated: the error payload is the sorted set of
ALL referenced material indices, here [0, 5], which strictly contains the
in-range index 0; the set of out-of-range indices alone would be [5]. -/
theorem c7_reported_set_counterexample :
    materialIndicesFor optsEx mOOBEx false = .ok [0]
    ∧ build_ase optsEx [mOOBEx] = .error (.materialIndexOutOfBounds 5 "Cube" [0, 5])
    ∧ ([0, 5] : List ℕ).filter (fun i => ([0] : List ℕ).length ≤ i) = [5]
    ∧ (([0, 5] : List ℕ) ≠ [5]) :=
  ⟨rfl, rfl, by decide, by decide⟩

/-
Explicit characterization of one- and two-mesh builds.
-/

lemma build_single {o : ASEBuildOptions} {m : MeshInput} {a : ASE}
    (hc : is_collision_name m.name = false)
    (h : build_ase o [m] = .ok a) :
    ∃ mi cs, materialIndicesFor o m false = .ok mi
      ∧ meshVertexColors o m = .ok cs
      ∧ a.geometryObjects
          = [updateGeometryObject o m { name := m.name, isCollision := false } mi cs] := by
  obtain ⟨st, hloop, -, -, ha⟩ := build_ase_eq_ok h
  rw [buildLoop_cons] at hloop
  cases hpm : processMesh o {} m with
  | error e => rw [hpm] at hloop; simp at hloop
  | ok st1 =>
    rw [hpm] at hloop
    have hst1 : st1 = st := by
      have h2 : (Except.ok st1 : Except ASEBuildError BuildState) = .ok st := hloop
      injection h2
    obtain ⟨mi, cs, hval, hmi, hchk, hcs, hsteq⟩ := processMesh_eq_ok hpm
    have hfresh : ({ name := m.name, isCollision := is_collision_name m.name }
        : ASEGeometryObject) = { name := m.name, isCollision := false } := by rw [hc]
    have hobj : selectedObject {} m = { name := m.name, isCollision := false } := by
      rw [selectedObject_new (Or.inr rfl), hfresh]
    have hic : (selectedObject {} m).isCollision = false := by rw [hobj]
    refine ⟨mi, cs, ?_, ?_, ?_⟩
    · rw [hic] at hmi
      exact hmi
    · rw [hic] at hcs
      simpa using hcs
    · rw [ha]
      show st.geometryObjects = _
      rw [← hst1, hsteq]
      show (selectedState {} m).geometryObjects.set (selectedIndex {} m)
            (updateGeometryObject o m (selectedObject {} m) mi cs) = _
      rw [hobj]
      have hss : (selectedState {} m).geometryObjects
          = [{ name := m.name, isCollision := false }] := by
        unfold selectedState
        rw [select_new (Or.inr rfl)]
        show [] ++ [_] = _
        rw [hfresh]
        rfl
      have hsi : selectedIndex {} m = 0 := by
        unfold selectedIndex
        rw [select_new (Or.inr rfl)]
        rfl
      rw [hss, hsi]
      rfl

/-- C2: when inversion is determined for a non-collision mesh, build_ase
iterates the face corners in order (2,1,0) across every corner-indexed
channel of each face: the vertex index triple, the three per-corner
normals, and the texture-vertex-face index triple all carry the same
reversed permutation; the per-corner normals are additionally negated
while the face normal is not; the per-corner color list is stored in
plain loop order, each face corner addressing its color through the same
shared (permuted) texture-vertex-face triple. -/
theorem c2_inverted_corner_order {o : ASEBuildOptions} {m : MeshInput} {a : ASE}
    (hc : is_collision_name m.name = false)
    (hinv : computeShouldInvertNormals o m.decomposedScale = true)
    (h : build_ase o [m] = .ok a) :
    ∃ go cs, a.geometryObjects = [go]
      ∧ meshVertexColors o m = .ok cs
      ∧ go.faces.map (fun f => (f.a, f.b, f.c))
          = m.loopTriangles.map (fun lt =>
              (meshFaceCorner m 0 lt 2, meshFaceCorner m 0 lt 1, meshFaceCorner m 0 lt 0))
      ∧ go.faceNormals = m.loopTriangles.map (fun lt =>
          { normal := lt.normal
            vertexNormals := [
              { vertexIndex := meshFaceCorner m 0 lt 2
                normal := negVec (tripleGet lt.splitNormals 2) },
              { vertexIndex := meshFaceCorner m 0 lt 1
                normal := negVec (tripleGet lt.splitNormals 1) },
              { vertexIndex := meshFaceCorner m 0 lt 0
                normal := negVec (tripleGet lt.splitNormals 0) }] })
      ∧ go.textureVertexFaces = m.loopTriangles.map (fun lt =>
          (tripleGet lt.loops 2, tripleGet lt.loops 1, tripleGet lt.loops 0))
      ∧ go.vertexColors = cs := by
  obtain ⟨mi, cs, hmi, hcs, hgos⟩ := build_single hc h
  refine ⟨_, cs, hgos, hcs, ?_, ?_, ?_, ?_⟩
  · rw [update_faces]
    simp [hinv, loopTriangleIndexOrder, meshFaces, List.map_map, meshFaceCorner]
  · rw [update_faceNormals]
    simp [hinv, loopTriangleIndexOrder, meshFaceNormals, meshVertexNormal, meshFaceCorner]
  · rw [update_textureVertexFaces]
    simp [hinv, loopTriangleIndexOrder, meshTextureVertexFaces, listToTriple]
  · rw [update_vertexColors]
    rfl

/-- Witness for C2 at the fixture mesh with one negative scale axis. -/
theorem c2_inverted_corner_order_witness :
    ∃ go cs, aInvEx.geometryObjects = [go]
      ∧ meshVertexColors optsEx mInvEx = .ok cs
      ∧ go.faces.map (fun f => (f.a, f.b, f.c))
          = mInvEx.loopTriangles.map (fun lt =>
              (meshFaceCorner mInvEx 0 lt 2, meshFaceCorner mInvEx 0 lt 1,
                meshFaceCorner mInvEx 0 lt 0))
      ∧ go.faceNormals = mInvEx.loopTriangles.map (fun lt =>
          { normal := lt.normal
            vertexNormals := [
              { vertexIndex := meshFaceCorner mInvEx 0 lt 2
                normal := negVec (tripleGet lt.splitNormals 2) },
              { vertexIndex := meshFaceCorner mInvEx 0 lt 1
                normal := negVec (tripleGet lt.splitNormals 1) },
              { vertexIndex := meshFaceCorner mInvEx 0 lt 0
                normal := negVec (tripleGet lt.splitNormals 0) }] })
      ∧ go.textureVertexFaces = mInvEx.loopTriangles.map (fun lt =>
          (tripleGet lt.loops 2, tripleGet lt.loops 1, tripleGet lt.loops 0))
      ∧ go.vertexColors = cs :=
  c2_inverted_corner_order (by decide) (by decide)
    (by rfl : build_ase optsEx [mInvEx] = .ok aInvEx)

lemma build_pair {o : ASEBuildOptions} {m1 m2 : MeshInput} {a : ASE}
    (hc1 : is_collision_name m1.name = false)
    (hc2 : is_collision_name m2.name = false)
    (h : build_ase o [m1, m2] = .ok a) :
    ∃ mi1 cs1 mi2 cs2,
      materialIndicesFor o m1 false = .ok mi1
      ∧ meshVertexColors o m1 = .ok cs1
      ∧ materialIndicesFor o m2 false = .ok mi2
      ∧ meshVertexColors o m2 = .ok cs2
      ∧ a.geometryObjects
          = [updateGeometryObject o m2
              (updateGeometryObject o m1 { name := m1.name, isCollision := false } mi1 cs1)
              mi2 cs2] := by
  obtain ⟨st, hloop, -, -, ha⟩ := build_ase_eq_ok h
  rw [buildLoop_cons] at hloop
  cases hpm1 : processMesh o {} m1 with
  | error e => rw [hpm1] at hloop; simp at hloop
  | ok st1 =>
    rw [hpm1] at hloop
    have hloop2 : buildLoop o st1 [m2] = .ok st := hloop
    rw [buildLoop_cons] at hloop2
    obtain ⟨mi1, cs1, hval1, hmi1, hchk1, hcs1, hsteq1⟩ := processMesh_eq_ok hpm1
    have hfresh : ({ name := m1.name, isCollision := is_collision_name m1.name }
        : ASEGeometryObject) = { name := m1.name, isCollision := false } := by rw [hc1]
    have hobj1 : selectedObject {} m1 = { name := m1.name, isCollision := false } := by
      rw [selectedObject_new (Or.inr rfl), hfresh]
    have hic1 : (selectedObject {} m1).isCollision = false := by rw [hobj1]
    have hst1 : st1 = ({ geometryObjects :=
                             [updateGeometryObject o m1
                               ({ name := m1.name, isCollision := false } : ASEGeometryObject)
                               mi1 cs1],
                         mainIndex := some 0 } : BuildState) := by
      rw [hsteq1]
      have hss : (selectedState {} m1).geometryObjects
          = [{ name := m1.name, isCollision := false }] := by
        unfold selectedState
        rw [select_new (Or.inr rfl)]
        show [] ++ [_] = _
        rw [hfresh]
        rfl
      have hsi : selectedIndex {} m1 = 0 := by
        unfold selectedIndex
        rw [select_new (Or.inr rfl)]
        rfl
      have hsm : (selectedState {} m1).mainIndex = some 0 := by
        unfold selectedState
        rw [select_new (Or.inr rfl)]
        simp [hc1]
      show ({ geometryObjects := ((selectedState {} m1).geometryObjects.set (selectedIndex {} m1)
                                     (updateGeometryObject o m1 (selectedObject {} m1) mi1 cs1)),
              mainIndex := (selectedState {} m1).mainIndex } : BuildState) = _
      rw [hss, hsi, hsm, hobj1]
      rfl
    cases hpm2 : processMesh o st1 m2 with
    | error e => rw [hpm2] at hloop2; simp at hloop2
    | ok st2 =>
      rw [hpm2] at hloop2
      have hst2 : st2 = st := by
        have h2 : (Except.ok st2 : Except ASEBuildError BuildState) = .ok st := hloop2
        injection h2
      obtain ⟨mi2, cs2, hval2, hmi2, hchk2, hcs2, hsteq2⟩ := processMesh_eq_ok hpm2
      have hmain1 : st1.mainIndex = some 0 := by rw [hst1]
      have hobj2 : selectedObject st1 m2
          = updateGeometryObject o m1 { name := m1.name, isCollision := false } mi1 cs1 := by
        rw [selectedObject_reuse hc2 hmain1, hst1]
        rfl
      have hic2 : (selectedObject st1 m2).isCollision = false := by
        rw [hobj2, update_isCollision]
      refine ⟨mi1, cs1, mi2, cs2, ?_, ?_, ?_, ?_, ?_⟩
      · rw [hic1] at hmi1; exact hmi1
      · rw [hic1] at hcs1; simpa using hcs1
      · rw [hic2] at hmi2; exact hmi2
      · rw [hic2] at hcs2; simpa using hcs2
      · rw [ha]
        show st.geometryObjects = _
        rw [← hst2, hsteq2]
        show (selectedState st1 m2).geometryObjects.set (selectedIndex st1 m2)
              (updateGeometryObject o m2 (selectedObject st1 m2) mi2 cs2) = _
        have hss2 : selectedState st1 m2 = st1 := by
          unfold selectedState
          rw [select_reuse hc2 hmain1]
        have hsi2 : selectedIndex st1 m2 = 0 := by
          unfold selectedIndex
          rw [select_reuse hc2 hmain1]
        rw [hss2, hsi2, hobj2, hst1]
        rfl

/-- C5: merging two non-collision meshes into one geometry object offsets
every face vertex index of the second mesh by exactly the vertex count of
the first mesh and every texture-vertex-face index by exactly the loop
count of the first mesh, because after the first mesh the builder sets
vertex_offset to the object total vertex count and advances
texture_vertex_offset by the mesh loop count. -/
theorem c5_merge_offsets {o : ASEBuildOptions} {m1 m2 : MeshInput} {a : ASE}
    (hc1 : is_collision_name m1.name = false)
    (hc2 : is_collision_name m2.name = false)
    (h : build_ase o [m1, m2] = .ok a) :
    ∃ (go : ASEGeometryObject) (mi1 : List ℕ) (cs1 : List Vec3) (mi2 : List ℕ),
      a.geometryObjects = [go]
      ∧ materialIndicesFor o m1 false = .ok mi1
      ∧ materialIndicesFor o m2 false = .ok mi2
      ∧ go.faces
          = meshFaces m1 0 mi1 false
              (loopTriangleIndexOrder (computeShouldInvertNormals o m1.decomposedScale))
            ++ meshFaces m2 m1.vertices.length mi2 false
              (loopTriangleIndexOrder (computeShouldInvertNormals o m2.decomposedScale))
      ∧ go.textureVertexFaces
          = meshTextureVertexFaces m1 0
              (loopTriangleIndexOrder (computeShouldInvertNormals o m1.decomposedScale))
            ++ meshTextureVertexFaces m2 m1.loops.length
              (loopTriangleIndexOrder (computeShouldInvertNormals o m2.decomposedScale))
      ∧ (updateGeometryObject o m1
          ({ name := m1.name, isCollision := false }) mi1 cs1).vertexOffset
          = m1.vertices.length
      ∧ (updateGeometryObject o m1
          ({ name := m1.name, isCollision := false }) mi1 cs1).textureVertexOffset
          = m1.loops.length
      ∧ (∀ (vo : ℕ) (mi : List ℕ) (ord : List ℕ),
          (meshFaces m2 vo mi false ord).map (fun f => (f.a, f.b, f.c))
            = (meshFaces m2 0 mi false ord).map (fun f => (vo + f.a, vo + f.b, vo + f.c)))
      ∧ (∀ (tvo : ℕ) (inv : Bool),
          meshTextureVertexFaces m2 tvo (loopTriangleIndexOrder inv)
            = (meshTextureVertexFaces m2 0 (loopTriangleIndexOrder inv)).map
                (fun t => (tvo + t.1, tvo + t.2.1, tvo + t.2.2))) := by
  obtain ⟨mi1, cs1, mi2, cs2, hmi1, hcs1, hmi2, hcs2, hgos⟩ := build_pair hc1 hc2 h
  refine ⟨_, mi1, cs1, mi2, hgos, hmi1, hmi2, ?_, ?_, ?_, ?_, ?_, ?_⟩
  · simp [update_faces]
  · simp [update_textureVertexFaces]
  · simp [update_vertexOffset]
  · simp [update_textureVertexOffset]
  · intro vo mi ord
    simp [meshFaces, List.map_map, meshFaceCorner]
  · intro tvo inv
    cases inv <;>
      simp [meshTextureVertexFaces, loopTriangleIndexOrder, listToTriple, List.map_map]

/-- Witness for C5: merging the fixture mesh with its negative-scale
variant; the second contribution is offset by 3 vertices and 3 loops. -/
theorem c5_merge_offsets_witness :
    ∃ (go : ASEGeometryObject) (mi1 : List ℕ) (cs1 : List Vec3) (mi2 : List ℕ),
      aPairEx.geometryObjects = [go]
      ∧ materialIndicesFor optsEx mEx false = .ok mi1
      ∧ materialIndicesFor optsEx mInvEx false = .ok mi2
      ∧ go.faces
          = meshFaces mEx 0 mi1 false
              (loopTriangleIndexOrder (computeShouldInvertNormals optsEx mEx.decomposedScale))
            ++ meshFaces mInvEx mEx.vertices.length mi2 false
              (loopTriangleIndexOrder (computeShouldInvertNormals optsEx mInvEx.decomposedScale))
      ∧ go.textureVertexFaces
          = meshTextureVertexFaces mEx 0
              (loopTriangleIndexOrder (computeShouldInvertNormals optsEx mEx.decomposedScale))
            ++ meshTextureVertexFaces mInvEx mEx.loops.length
              (loopTriangleIndexOrder (computeShouldInvertNormals optsEx mInvEx.decomposedScale))
      ∧ (updateGeometryObject optsEx mEx
          ({ name := mEx.name, isCollision := false }) mi1 cs1).vertexOffset
          = mEx.vertices.length
      ∧ (updateGeometryObject optsEx mEx
          ({ name := mEx.name, isCollision := false }) mi1 cs1).textureVertexOffset
          = mEx.loops.length
      ∧ (∀ (vo : ℕ) (mi : List ℕ) (ord : List ℕ),
          (meshFaces mInvEx vo mi false ord).map (fun f => (f.a, f.b, f.c))
            = (meshFaces mInvEx 0 mi false ord).map (fun f => (vo + f.a, vo + f.b, vo + f.c)))
      ∧ (∀ (tvo : ℕ) (inv : Bool),
          meshTextureVertexFaces mInvEx tvo (loopTriangleIndexOrder inv)
            = (meshTextureVertexFaces mInvEx 0 (loopTriangleIndexOrder inv)).map
                (fun t => (tvo + t.1, tvo + t.2.1, tvo + t.2.2))) :=
  c5_merge_offsets (by decide) (by decide)
    (by rfl : build_ase optsEx [mEx, mInvEx] = .ok aPairEx)
